import Mathlib

/-!
Verification development for the PSyclone transformation-engine snapshot.

Each section embeds one part of the source tree as executable Lean
definitions and proves the specified properties about them.
-/

namespace BlockLoop

/-! # Embedding of `psyir/transformations/block_loop_trans.py`

The PSyIR fragment needed by `BlockLoopTrans` is a Loop node with four
children `[start, stop, step, body]`, a loop variable, and a list of
string annotations, plus Assignment nodes and the expressions occurring
in loop bounds (`Literal`, `Reference`, `BinaryOperation` with
ADD/SUB/MIN/MAX).  Literals carry a scalar datatype whose intrinsic is
INTEGER or REAL (`ScalarType.Intrinsic`).
-/

/-- `ScalarType.Intrinsic` tag of a Literal (only the two used here). -/
inductive BTy where
  | integer
  | real
  deriving DecidableEq

/-- Expressions that can appear as loop bounds/steps or assignment
right-hand sides in the blocking transformation. -/
inductive BExpr where
  | lit (value : Int) (ty : BTy)
  | ref (name : String)
  | add (a b : BExpr)
  | sub (a b : BExpr)
  | minOp (a b : BExpr)
  | maxOp (a b : BExpr)
  deriving DecidableEq

/-- Statements: Assignment (to a scalar variable) and Loop.  A Loop node
bundles its four children `start, stop, step, body` together with the
loop variable name and its `annotations` list (field `annots` here). -/
inductive BStmt where
  | assign (lhs : String) (rhs : BExpr)
  | loop (varName : String) (start stop step : BExpr) (annots : List String)
      (body : List BStmt)

/-- Names referenced inside an expression (the signatures produced by
`VariablesAccessInfo` on a bound expression: all accesses are reads). -/
def exprVars : BExpr → List String
  | .lit _ _ => []
  | .ref n => [n]
  | .add a b => exprVars a ++ exprVars b
  | .sub a b => exprVars a ++ exprVars b
  | .minOp a b => exprVars a ++ exprVars b
  | .maxOp a b => exprVars a ++ exprVars b

mutual

/-- All signatures accessed in one statement (`VariablesAccessInfo`):
assignment left-hand side and right-hand side references, loop control
variable, loop bounds and loop body. -/
def stmtSigs : BStmt → List String
  | .assign lhs rhs => lhs :: exprVars rhs
  | .loop v a b s _ body =>
      v :: (exprVars a ++ exprVars b ++ exprVars s ++ stmtsSigs body)

/-- `VariablesAccessInfo(node.children[3]).all_signatures` over a
statement list. -/
def stmtsSigs : List BStmt → List String
  | [] => []
  | s :: rest => stmtSigs s ++ stmtsSigs rest

end

mutual

/-- Signatures with a write (or readwrite) access in one statement:
the assignment left-hand side and loop control variables (a loop
variable is recorded as READWRITE by the access analysis). -/
def stmtWrites : BStmt → List String
  | .assign lhs _ => [lhs]
  | .loop v _ _ _ _ body => v :: stmtsWrites body

/-- Written signatures of a statement list. -/
def stmtsWrites : List BStmt → List String
  | [] => []
  | s :: rest => stmtWrites s ++ stmtsWrites rest

end

/-- A value supplied under the `"blocksize"` key of the `options` dict.
The source does not type-check this value; we model the two Python value
kinds that matter for the claims: `int` (well-typed) and `str`
(ill-typed, `abs()` raises `TypeError` on it). -/
inductive OptVal where
  | int (z : Int)
  | str (s : String)
  deriving DecidableEq

/-- `options.get("blocksize", 32)`: `none` models an options dict with
no `"blocksize"` key. -/
def optGet : Option OptVal → OptVal
  | none => .int 32
  | some v => v

/-- Errors escaping `validate`/`apply`: `TransformationError` raised
explicitly by the source, or a Python `TypeError` raised by `abs()` on a
non-numeric block size. -/
inductive BErr where
  | transformationError (msg : String)
  | typeError (msg : String)
  deriving DecidableEq

/-- The boundary-variable dependence check of `BlockLoopTrans.validate`
(lines 140-171): the bounds signatures are the variables of `start` and
`stop` plus the loop variable (added as READWRITE); for the first of
them that also appears in the body signatures with a write access the
check fails, naming that variable. -/
def firstWrittenBound (v : String) (a b : BExpr) (body : List BStmt) :
    Option String :=
  (exprVars a ++ exprVars b ++ [v]).find?
    (fun n => decide (n ∈ stmtsSigs body) && decide (n ∈ stmtsWrites body))

/-- `BlockLoopTrans.validate` (lines 88-171).  The checks appear in
source order: non-Literal step; non-integer step; `abs(int(step)) >
abs(block_size)` (where Python `abs` on a string raises `TypeError`);
`'blocked' in node.annotations`; zero step; boundary variable written in
the body.  `super().validate` (LoopTrans, not under src/) checks that
the node is a Loop with its four children, which the `BStmt.loop`
constructor enforces; a non-Loop argument is modelled by the catch-all
error case. -/
def blockLoopValidate : BStmt → Option OptVal → Except BErr Unit
  | .loop v a b stepE ann body, opts =>
    match stepE with
    | .lit s ty =>
      if ty ≠ .integer then
        .error (.transformationError
          "Cannot apply a BlockLoopTrans to a loop with a non-integer step size.")
      else
        match optGet opts with
        | .str _ =>
          .error (.typeError "bad operand type for abs(): 'str'")
        | .int B =>
          if |s| > |B| then
            .error (.transformationError
              ("Cannot apply a BlockLoopTrans to a loop with larger step size ("
                ++ toString s ++ ") than the chosen block size ("
                ++ toString B ++ ")."))
          else if "blocked" ∈ ann then
            .error (.transformationError
              "Cannot apply a BlockLoopTrans to an already blocked loop.")
          else if s = 0 then
            .error (.transformationError
              "Cannot apply a BlockLoopTrans to a loop with a step size of 0.")
          else
            match firstWrittenBound v a b body with
            | some w =>
              .error (.transformationError
                ("Cannot apply a BlockedLoopTrans to this loop because the boundary variable '"
                  ++ w ++ "' is written to inside the loop body."))
            | none => .ok ()
    | _ =>
      .error (.transformationError
        "Cannot apply a BlockLoopTrans to a loop with a non-constant step size.")
  | _, _ =>
    .error (.transformationError
      "Target of BlockLoopTrans should be a PSyIR Loop.")

/-- `BlockLoopTrans.apply` (lines 173-258).  After `self.validate`, the
transformation builds `v_el_inner` and `v_out_var` symbols
(`symbol_from_tag` with those deterministic tags), assigns
`v_el_inner = MIN(v_out_var + block_size, stop)` (or `MAX(... -
block_size, stop)` for a negative step), rewires the original loop to
run from `v_out_var` to `v_el_inner` with its original step and a
`'blocked'` annotation appended, and replaces it by an outer loop over
`v_out_var` with the original bounds, step `block_size` (negated for a
negative step) and annotations `['blocked']`, whose body schedule is
`[inner_loop_end, original loop]`.  The `.error` fall-through branches
are unreachable: `validate` has already rejected those shapes. -/
def blockLoopApply : BStmt → Option OptVal → Except BErr BStmt
  | .loop v a b stepE ann body, opts => do
    blockLoopValidate (.loop v a b stepE ann body) opts
    match optGet opts with
    | .int B =>
      match stepE with
      | .lit s ty =>
        let elInner := v ++ "_el_inner"
        let outVar := v ++ "_out_var"
        if s > 0 then
          let innerLoopEnd := BStmt.assign elInner
            (.minOp (.add (.ref outVar) (.lit B .integer)) b)
          let inner := BStmt.loop v (.ref outVar) (.ref elInner)
            (.lit s ty) (ann ++ ["blocked"]) body
          .ok (BStmt.loop outVar a b (.lit B .integer) ["blocked"]
            [innerLoopEnd, inner])
        else if s < 0 then
          let innerLoopEnd := BStmt.assign elInner
            (.maxOp (.sub (.ref outVar) (.lit B .integer)) b)
          let inner := BStmt.loop v (.ref outVar) (.ref elInner)
            (.lit s ty) (ann ++ ["blocked"]) body
          .ok (BStmt.loop outVar a b (.lit (-B) .integer) ["blocked"]
            [innerLoopEnd, inner])
        else
          .error (.transformationError "unreachable: zero step")
      | _ => .error (.transformationError "unreachable: non-literal step")
    | .str _ => .error (.typeError "unreachable: validate rejected it")
  | _, _ =>
    .error (.transformationError
      "Target of BlockLoopTrans should be a PSyIR Loop.")

/-! ## Execution semantics

Fortran DO-loop semantics for the generated PSyIR: `do v = a, b, s`
fixes its iteration count at entry as `max(0, (b - a + s) / s)`
(integer division truncating towards zero) and runs `v` through
`a, a + s, ...` — the stop bound is inclusive.  `execStmts` is
fuel-indexed so that it computes by kernel reduction; it returns the
final environment and the trace of values assigned to loop variables,
as `(variable, value)` pairs in execution order. -/

/-- Environments are association lists; unbound names read as 0. -/
def envGet (env : List (String × Int)) (n : String) : Int :=
  match env.find? (fun p => p.1 = n) with
  | some p => p.2
  | none => 0

/-- Expression evaluation. -/
def evalB (env : List (String × Int)) : BExpr → Int
  | .lit z _ => z
  | .ref n => envGet env n
  | .add a b => evalB env a + evalB env b
  | .sub a b => evalB env a - evalB env b
  | .minOp a b => min (evalB env a) (evalB env b)
  | .maxOp a b => max (evalB env a) (evalB env b)

/-- The sequence of values a Fortran counted loop `do v = a, b, s`
assigns to its variable. -/
def doSeq (a b s : Int) : List Int :=
  if s = 0 then []
  else (List.range (max 0 ((b - a + s) / s)).toNat).map
    (fun k => a + s * Int.ofNat k)

mutual

/-- Fuel-indexed big-step execution of a statement list.  `none` means
the fuel ran out (never the case in the concrete runs below). -/
def execStmts :
    Nat → List BStmt → List (String × Int) →
      Option (List (String × Int) × List (String × Int))
  | 0, _, _ => none
  | _ + 1, [], env => some (env, [])
  | fuel + 1, .assign v e :: rest, env =>
      execStmts fuel rest ((v, evalB env e) :: env)
  | fuel + 1, .loop v a b s _ body :: rest, env => do
      let vals := doSeq (evalB env a) (evalB env b) (evalB env s)
      let r ← execIters fuel body v vals env
      let r2 ← execStmts fuel rest r.1
      some (r2.1, r.2 ++ r2.2)

/-- Runs the loop body once per value in `vals`, assigning the loop
variable before each pass and recording it in the trace. -/
def execIters :
    Nat → List BStmt → String → List Int → List (String × Int) →
      Option (List (String × Int) × List (String × Int))
  | 0, _, _, _, _ => none
  | _ + 1, _, _, [], env => some (env, [])
  | fuel + 1, body, v, x :: xs, env => do
      let r ← execStmts fuel body ((v, x) :: env)
      let r2 ← execIters fuel body v xs r.1
      some (r2.1, ((v, x) :: r.2) ++ r2.2)

end

/-- Values taken by variable `v` in a trace, in order. -/
def traceOf (v : String) (tr : List (String × Int)) : List Int :=
  (tr.filter (fun p => p.1 = v)).map (fun p => p.2)

/-- `isinstance(node.loop_body.children[0], Loop)`. -/
def isLoop : BStmt → Bool
  | .loop _ _ _ _ _ _ => true
  | _ => false

end BlockLoop

namespace Tiling

open BlockLoop

/-- `LoopTiling2DTrans.validate`
(`psyir/transformations/loop_tiling_2d_trans.py` lines 91-118).  After
`super().validate` (target must be a Loop; the catch-all arm) it raises
`TransformationError("")` — with an empty message — when
`len(node.loop_body.children) != 1`, and again `TransformationError("")`
when the single child is not a Loop.  On the well-shaped path it calls
`ChunkLoopTrans().validate` on the outer and the inner loop with options
`{'chuncksize': tilesize}`; `ChunkLoopTrans` is this repository's
blocking transformation (`BlockLoopTrans` under its later name, the
class itself not being under src/), and the misspelled `'chuncksize'`
key is not a key that validation reads, so the default block size 32 is
used — modelled by passing an options dict with no `"blocksize"` key.
The `tilesize` option therefore has no effect on validation and is not a
parameter here. -/
def loopTiling2DValidate (node : BStmt) : Except BErr Unit :=
  match node with
  | .loop _ _ _ _ _ [inner] =>
      if isLoop inner then do
        blockLoopValidate node none
        blockLoopValidate inner none
      else .error (.transformationError "")
  | .loop _ _ _ _ _ _ => .error (.transformationError "")
  | _ =>
      .error (.transformationError
        "Target of LoopTiling2DTrans should be a PSyIR Loop.")

/-- A loop body breaking the strict 2-deep-nesting precondition: not
exactly one child, or the one child is not a Loop. -/
def badTilingBody : List BStmt → Bool
  | [inner] => !(isLoop inner)
  | _ => true

end Tiling

namespace Nemo

/-! # Embedding of `examples/nemo/eg4/sir_trans_intrinsics.py`

The NEMO intrinsic-lowering transformations operate on assignments over
REAL scalars; values are modelled as rationals.  `QExpr.absOp` and
`QExpr.signOp` are the PSyIR `UnaryOperation.Operator.ABS` and
`BinaryOperation.Operator.SIGN` intrinsic operations before lowering;
their evaluation is the Fortran intrinsic semantics (`ABS(X) = |X|`,
`SIGN(A, B) =` the magnitude of `A` with the sign of `B`), which is the
reference the lowered code must agree with. -/

/-- Expressions appearing in the lowering. -/
inductive QExpr where
  | lit (q : ℚ)
  | ref (n : String)
  | mul (a b : QExpr)
  | absOp (a : QExpr)
  | signOp (a b : QExpr)
  deriving DecidableEq

/-- If-conditions produced by the lowering (strict comparisons). -/
inductive QCond where
  | gt (a b : QExpr)
  | lt (a b : QExpr)
  deriving DecidableEq

/-- Statements: Assignment and IfBlock (with then- and else-bodies; an
`IfBlock.create` without else body has an empty `elseBody`). -/
inductive QStmt where
  | assign (lhs : String) (rhs : QExpr)
  | ifBlock (cond : QCond) (thenBody elseBody : List QStmt)

/-- Environment lookup (association list; unbound reads as 0). -/
def qGet : List (String × ℚ) → String → ℚ
  | [], _ => 0
  | p :: rest, n => if p.1 = n then p.2 else qGet rest n

/-- Expression evaluation; the intrinsic operations get their Fortran
semantics. -/
def evalQ (env : List (String × ℚ)) : QExpr → ℚ
  | .lit q => q
  | .ref n => qGet env n
  | .mul a b => evalQ env a * evalQ env b
  | .absOp a => |evalQ env a|
  | .signOp a b => if evalQ env b < 0 then -|evalQ env a| else |evalQ env a|

/-- Condition evaluation. -/
def evalQCond (env : List (String × ℚ)) : QCond → Bool
  | .gt a b => decide (evalQ env a > evalQ env b)
  | .lt a b => decide (evalQ env a < evalQ env b)

mutual

/-- Big-step execution of one statement. -/
def execQStmt : QStmt → List (String × ℚ) → List (String × ℚ)
  | .assign v e, env => (v, evalQ env e) :: env
  | .ifBlock c t e, env =>
      if evalQCond env c then execQStmts t env else execQStmts e env

/-- Big-step execution of a statement list. -/
def execQStmts : List QStmt → List (String × ℚ) → List (String × ℚ)
  | [], env => env
  | s :: rest, env => execQStmts rest (execQStmt s env)

end

/-- The two statements `NemoAbsTrans.apply` (lines 153-231) inserts in
front of the enclosing assignment when lowering an ABS operation with
argument `x`, given the fresh names `resVar` (`res_abs`) and `tmpVar`
(`tmp_abs`): `tmp_abs = x` and
`IF (tmp_abs > 0.0) resVar = tmp_abs ELSE resVar = tmp_abs * -1.0`
(lines 202-231; the condition is the strict `GT` of line 212). -/
def nemoAbsLowering (resVar tmpVar : String) (x : QExpr) : List QStmt :=
  [ .assign tmpVar x,
    .ifBlock (.gt (.ref tmpVar) (.lit 0))
      [.assign resVar (.ref tmpVar)]
      [.assign resVar (.mul (.ref tmpVar) (.lit (-1)))] ]

/-- The schedule produced by applying `NemoAbsTrans` to the (single) ABS
operation of `R = ABS(X)`: the operation is replaced by a Reference to
`res_abs` and the two statements of `nemoAbsLowering` are inserted
before the assignment. -/
def nemoAbsApplySchedule (R : String) (x : QExpr) : List QStmt :=
  nemoAbsLowering "res_abs" "tmp_abs" x ++ [.assign R (.ref "res_abs")]

/-- The schedule produced by applying `NemoSignTrans` (lines 253-343) to
the (single) SIGN operation of `R = SIGN(A, B)`.  In source order: the
SIGN node is replaced by `Reference(res_sign)`; `res_sign =
ABS(node.children[1])` — that is `ABS(B)`, line 311 — is inserted before
the assignment; `NemoAbsTrans` is applied to that ABS node (line 318),
yielding the two `nemoAbsLowering` statements in front of `res_sign =
res_abs`; then `tmp_sign = node.children[0]` — that is `A`, line 322 —
and `IF (tmp_sign < 0.0) res_sign = res_sign * -1.0` (lines 326-343, no
else body) are inserted before the original assignment. -/
def nemoSignApplySchedule (R : String) (a b : QExpr) : List QStmt :=
  nemoAbsLowering "res_abs" "tmp_abs" b
  ++ [ .assign "res_sign" (.ref "res_abs"),
       .assign "tmp_sign" a,
       .ifBlock (.lt (.ref "tmp_sign") (.lit 0))
         [.assign "res_sign" (.mul (.ref "res_sign") (.lit (-1)))] [],
       .assign R (.ref "res_sign") ]

end Nemo

namespace SymMaths

/-! # Model of the symbolic-equality oracle

`SymbolicMaths` itself is not under src/ — only its tests
(`tests/core/symbolic_maths_test.py`) are — so the oracle is modelled
from the spec (§4.5). -/

/-- Modelled from the spec: the three-valued result of `equal`
(`SymbolicMaths` is not under src/). -/
inductive EqResult where
  | equalR
  | notEqualR
  | unknownR
  deriving DecidableEq

/-- Modelled from the spec: IR expressions handed to the oracle, as far
as the tested pairs need — variables, integer literals, addition,
structure-member/array-subscript chains (opaque, keyed by their full
textual path, §4.5), and library calls with literal-constant arguments
(the known-limitation case, §4.5). -/
inductive MExpr where
  | var (n : String)
  | intLit (z : Int)
  | add (a b : MExpr)
  | structAccess (path : String)
  | call (fname : String) (args : List Int)
  deriving DecidableEq

/-- Modelled from the spec: the textual key of a library call, e.g.
`MAX(1,2,3)` — the Fortran-writer spelling whose mismatch with the
simplifier's expected spelling causes the documented limitation. -/
def callKey (fname : String) (args : List Int) : String :=
  fname ++ "(" ++ String.intercalate "," (args.map toString) ++ ")"

/-- Modelled from the spec: the atoms of the normalized algebraic form —
variables, opaque structure-access paths, and opaque call keys. -/
def atoms : MExpr → List String
  | .var n => ["v:" ++ n]
  | .intLit _ => []
  | .add a b => atoms a ++ atoms b
  | .structAccess p => ["s:" ++ p]
  | .call f args => ["c:" ++ callKey f args]

/-- Modelled from the spec: the constant part of the normalized form. -/
def constPart : MExpr → Int
  | .var _ => 0
  | .intLit z => z
  | .add a b => constPart a + constPart b
  | .structAccess _ => 0
  | .call _ _ => 0

/-- Modelled from the spec: whether a library-call expression occurs —
the case in which normal-form mismatch is inconclusive (§4.5's known
limitation). -/
def hasCall : MExpr → Bool
  | .var _ => false
  | .intLit _ => false
  | .add a b => hasCall a || hasCall b
  | .structAccess _ => false
  | .call _ _ => true

/-- Modelled from the spec: `equal(expr_a, expr_b)`.  Both sides are
normalized to a constant plus a multiset of atoms; equal normal forms
are EQUAL; distinct normal forms are NOT_EQUAL unless a library call is
involved, in which case the spelling mismatch makes the comparison
UNKNOWN (callers must treat UNKNOWN as not-proven-equal, which is the
falsy value the in-src tests observe). -/
def equal (a b : MExpr) : EqResult :=
  if constPart a = constPart b ∧
      ((atoms a : Multiset String) = (atoms b : Multiset String)) then
    .equalR
  else if hasCall a || hasCall b then
    .unknownR
  else
    .notEqualR

end SymMaths

namespace Extract

/-! # Model of region extraction

The region-extraction transformation (`LFRicExtractTrans`, its
`RegionTrans`/`ExtractTrans` bases and `ExtractNode`) is not under src/
— only its tests (`tests/domain/lfric/transformations/lfric_extract_test.py`)
are — so it is modelled from the spec (§4.4, Region Extraction). -/

/-- Modelled from the spec: a node of a schedule — an opaque statement,
or an extract region wrapping a list of nodes. -/
inductive XNode where
  | stmt (id : Nat)
  | extractNode (body : List XNode)

/-- Modelled from the spec: a node supplied to the transformation,
identified by its parent schedule and its 0-based sibling position
(the validation compares parents and positions). -/
structure Sel where
  parentId : Nat
  position : Nat
  deriving DecidableEq

/-- Modelled from the spec: the part of validation that checks the
supplied node list is a contiguous same-parent run — each node must have
the first node's parent, and each position must be the previous
position plus one (no gaps, no duplicates, no reordering).  The error
strings follow the in-src tests. -/
def checkRun (par prevPos : Nat) : List Sel → Except String Unit
  | [] => .ok ()
  | s :: rest =>
      if s.parentId ≠ par then
        .error "Error in LFRicExtractTrans: supplied nodes are not children of the same parent."
      else if s.position ≠ prevPos + 1 then
        .error ("Children are not consecutive children of one parent: child has position "
          ++ toString s.position ++ ", but previous child had position "
          ++ toString prevPos ++ ".")
      else checkRun par s.position rest

/-- Modelled from the spec: node-list validation for a non-empty
selection. -/
def validateNodeList : List Sel → Except String Unit
  | [] => .error "Error in LFRicExtractTrans: Argument must be a single Node in a Schedule, a Schedule or a list of Nodes in a Schedule."
  | s :: rest => checkRun s.parentId s.position rest

/-- Modelled from the spec: the selection naming the run of `n`
consecutive children of parent `par` starting at position `p`. -/
def runSel (par p n : Nat) : List Sel :=
  (List.range n).map (fun k => ⟨par, p + k⟩)

/-- Modelled from the spec: `apply` replaces the run of `n` nodes
starting at position `p` by a single extract region node wrapping
exactly those nodes, in place. -/
def applyExtract (sched : List XNode) (p n : Nat) : List XNode :=
  sched.take p ++ XNode.extractNode ((sched.drop p).take n) :: sched.drop (p + n)

mutual

/-- Number of extract region nodes in a subtree. -/
def countExtract : XNode → Nat
  | .stmt _ => 0
  | .extractNode body => 1 + countExtracts body

/-- Number of extract region nodes in a schedule. -/
def countExtracts : List XNode → Nat
  | [] => 0
  | x :: rest => countExtract x + countExtracts rest

end

mutual

/-- Number of nodes in a subtree (for pre-order absolute positions). -/
def sizeX : XNode → Nat
  | .stmt _ => 1
  | .extractNode body => 1 + sizesX body

/-- Number of nodes in a schedule. -/
def sizesX : List XNode → Nat
  | [] => 0
  | x :: rest => sizeX x + sizesX rest

end

/-- Modelled from the spec: the absolute (pre-order) position of the
`k`-th child of the root schedule, the root itself having absolute
position 0 — one plus the total number of nodes in the earlier
subtrees. -/
def absPosOfChild (sched : List XNode) (k : Nat) : Nat :=
  1 + sizesX (sched.take k)

end Extract

namespace Children

/-! # Model of per-kind child validation (`ChildrenList`)

The `Node`/`ChildrenList` implementation is not under src/ — only the
test `tests/psyir/nodes/node_test.py::test_children_validation` is — so
the mutation protocol is modelled from the spec (§4.2:
validate-before-mutate, atomic on failure), with the contract refined to
what that in-src test pins down: each (new or displaced) item is checked
against its would-be position in the parent kind's format string
(`'DataNode, DataNode'` for Assignment; `'DataNode, DataNode, DataNode,
Schedule'` for Loop), and an operation whose candidate list passes the
per-position check commits even if it leaves fewer children than the
full format (the test pops the trailing Schedule off a Loop
successfully). -/

/-- Modelled from the spec: node kinds appearing as children in the
test. -/
inductive CKind where
  | reference
  | literal
  | returnStmt
  | scheduleNode
  deriving DecidableEq

/-- Whether a child kind is a DataNode. -/
def isDataNode : CKind → Bool
  | .reference => true
  | .literal => true
  | _ => false

/-- Modelled from the spec: the two parent kinds exercised by the
test. -/
inductive PKind where
  | assignmentNode
  | loopNode
  deriving DecidableEq

/-- Modelled from the spec: the per-kind positional child contract
(`_validate_item`). -/
def validAt : PKind → Nat → CKind → Bool
  | .assignmentNode, 0, k => isDataNode k
  | .assignmentNode, 1, k => isDataNode k
  | .assignmentNode, _, _ => false
  | .loopNode, 0, k => isDataNode k
  | .loopNode, 1, k => isDataNode k
  | .loopNode, 2, k => isDataNode k
  | .loopNode, 3, k => decide (k = .scheduleNode)
  | .loopNode, _, _ => false

/-- Every item of a candidate children list from position `i` on is
valid at its position. -/
def validFrom (p : PKind) : Nat → List CKind → Bool
  | _, [] => true
  | i, k :: rest => validAt p i k && validFrom p (i + 1) rest

/-- Every item of a candidate children list is valid at its position. -/
def validList (p : PKind) (l : List CKind) : Bool :=
  validFrom p 0 l

/-- Modelled from the spec: the shared commit step of every
`ChildrenList` mutation — the candidate list is validated before any
mutation; on violation a `GenerationError` is raised and the original
children survive unchanged. -/
def mutateChildren (p : PKind) (current cand : List CKind) :
    List CKind × Option String :=
  if validList p cand then (cand, none)
  else (current, some "GenerationError: item can't be child at that position of this parent")

/-- Modelled from the spec: `addchild` / `children.append`. -/
def addchild (p : PKind) (l : List CKind) (x : CKind) :
    List CKind × Option String :=
  mutateChildren p l (l ++ [x])

/-- Modelled from the spec: `children.insert(i, x)`. -/
def insertChild (p : PKind) (l : List CKind) (i : Nat) (x : CKind) :
    List CKind × Option String :=
  mutateChildren p l (l.take i ++ x :: l.drop i)

/-- Modelled from the spec: `children[i] = x`. -/
def setChild (p : PKind) (l : List CKind) (i : Nat) (x : CKind) :
    List CKind × Option String :=
  mutateChildren p l (l.set i x)

/-- Modelled from the spec: `del children[i]` / `children.pop(i)`. -/
def delChild (p : PKind) (l : List CKind) (i : Nat) :
    List CKind × Option String :=
  mutateChildren p l (l.take i ++ l.drop (i + 1))

/-- Modelled from the spec: `children.pop()` (last element). -/
def popLast (p : PKind) (l : List CKind) : List CKind × Option String :=
  delChild p l (l.length - 1)

/-- Modelled from the spec: `children.remove(x)` (first occurrence). -/
def removeChild (p : PKind) (l : List CKind) (x : CKind) :
    List CKind × Option String :=
  mutateChildren p l (l.erase x)

/-- Modelled from the spec: `children.reverse()`. -/
def reverseChildren (p : PKind) (l : List CKind) :
    List CKind × Option String :=
  mutateChildren p l l.reverse

end Children

namespace ArrayRef

/-! # Embedding of `psyir/nodes/array_reference.py::ArrayReference.create` -/

/-- The datatypes `create` distinguishes: an `ArrayType` (with its shape
list, each dimension opaque here), a non-array type, and the
`DeferredType`/`UnknownType` escape hatches that may still be arrays. -/
inductive PDataType where
  | scalar
  | array (shape : List Nat)
  | deferredType
  | unknownType
  deriving DecidableEq

/-- Rendering of a datatype for the error message
`f"found '·symbol.datatype·'"`. -/
def dtStr : PDataType → String
  | .scalar => "Scalar"
  | .array _ => "Array"
  | .deferredType => "DeferredType"
  | .unknownType => "UnknownType"

/-- The `symbol` argument: a `DataSymbol`, or any other Python object
(whose type name feeds the error message). -/
inductive SymArg where
  | dataSymbol (name : String) (dt : PDataType)
  | otherObject (typeName : String)
  deriving DecidableEq

/-- One element of the `indices` list: a PSyIR node (opaque id) or the
special string `":"`. -/
inductive IdxItem where
  | node (id : Nat)
  | colon
  deriving DecidableEq

/-- The `indices` argument: a Python list, or any other object. -/
inductive IdxArg where
  | pyList (items : List IdxItem)
  | notAList (typeName : String)
  deriving DecidableEq

/-- A child of the created `ArrayReference`: a plain index node, or the
full-extent `Range` (`LBOUND(symbol, dim)` to `UBOUND(symbol, dim)`)
that a `":"` at (0-based) position `dim - 1` expands to. -/
inductive ARChild where
  | plain (id : Nat)
  | rangeFull (dim : Nat)
  deriving DecidableEq

/-- The created `ArrayReference` node: the symbol it references plus its
index children. -/
structure ARNode where
  symbolName : String
  children : List ARChild
  deriving DecidableEq

/-- `symbol.is_array`: the datatype is an `ArrayType`. -/
def isArrayDT : PDataType → Bool
  | .array _ => true
  | _ => false

/-- `symbol.shape` for an array datatype. -/
def shapeOf : PDataType → List Nat
  | .array s => s
  | _ => []

/-- `ArrayReference.create(symbol, indices)` (lines 62-115), checks in
source order: `symbol` must be a `DataSymbol`; `indices` must be a list;
a non-array symbol must at least be of Deferred/Unknown type; an array
symbol must have as many shape dimensions as indices.  Then the node is
built, each `":"` index becoming the full-extent Range of its (1-based)
dimension.  `GenerationError` is modelled by `Except.error`; no node
exists on any error path. -/
def create (symbol : SymArg) (indices : IdxArg) : Except String ARNode :=
  match symbol with
  | .otherObject tn =>
      .error ("symbol argument in create method of ArrayReference class should be a DataSymbol but found '"
        ++ tn ++ "'.")
  | .dataSymbol name dt =>
    match indices with
    | .notAList tn =>
        .error ("indices argument in create method of ArrayReference class should be a list but found '"
          ++ tn ++ "'.")
    | .pyList items =>
      if !(isArrayDT dt) && !(dt = PDataType.deferredType) &&
          !(dt = PDataType.unknownType) then
        .error ("expecting the symbol '" ++ name ++ "' to be an array, but found '"
          ++ dtStr dt ++ "'.")
      else if isArrayDT dt && (shapeOf dt).length ≠ items.length then
        .error ("the symbol '" ++ name
          ++ "' should have the same number of dimensions as indices (provided in the 'indices' argument). Expecting '"
          ++ toString items.length ++ "' but found '"
          ++ toString (shapeOf dt).length ++ "'.")
      else
        .ok { symbolName := name,
              children := items.enum.map (fun pr =>
                match pr.2 with
                | .colon => ARChild.rangeFull (pr.1 + 1)
                | .node i => ARChild.plain i) }

end ArrayRef

namespace KMI

/-! # Embedding of
`domain/common/transformations/kernel_module_inline_trans.py::KernelModuleInlineTrans.apply`
(lines 134-202), as reached after its `self.validate` has succeeded. -/

/-- The state `apply` can read or modify: the chain of symbol tables
visible from the call site (`node.scope.symbol_table.lookup` searches
the scope and its ancestors; innermost first, each table a list of
symbol names), the symbol table of the ancestor Container, and the
children of the tree root. -/
structure KState where
  scopeTables : List (List String)
  containerSymbols : List String
  rootChildren : List String
  deriving DecidableEq

/-- `node.scope.symbol_table.lookup(name)`: the first scope table
binding the name; `none` models the `KeyError` caught by `apply`. -/
def lookup (st : KState) (n : String) : Option String :=
  if st.scopeTables.any (fun t => decide (n ∈ t)) then some n else none

/-- `KernelModuleInlineTrans.apply` after successful validation.  When
`lookup` finds an existing symbol of the kernel's name the code takes
the `else` branch of line 199, which is `pass`: nothing is modified and
nothing is raised.  Otherwise it registers a `RoutineSymbol` of that
name in the ancestor Container's symbol table (line 157) and attaches
the inlined kernel schedule to the tree root (line 197); the `bring_in`
bookkeeping of lines 162-195 only touches the inlined schedule's own
symbol tables and is irrelevant to the looked-up scope state modelled
here. -/
def kmiApply (kernelName kernelCode : String) (st : KState) : KState :=
  match lookup st kernelName with
  | some _ => st
  | none =>
      { st with
        containerSymbols := st.containerSymbols ++ [kernelName],
        rootChildren := st.rootChildren ++ [kernelCode] }

end KMI

/-! # Helper lemmas -/

namespace Extract

/-- The extract count distributes over schedule concatenation. -/
theorem countExtracts_append (l1 l2 : List XNode) :
    countExtracts (l1 ++ l2) = countExtracts l1 + countExtracts l2 := by
  induction l1 with
  | nil => simp [countExtracts]
  | cons x rest ih => simp [countExtracts, ih]; omega

/-- A run of selections with one shared parent and strictly consecutive
positions passes the consecutiveness check. -/
theorem checkRun_consecutive (m par q : Nat) :
    checkRun par q ((List.range m).map (fun k => Sel.mk par (q + 1 + k))) = .ok () := by
  induction m generalizing q with
  | zero => rfl
  | succ n ih =>
    have hmap : (List.range (n + 1)).map (fun k => Sel.mk par (q + 1 + k))
        = Sel.mk par (q + 1) :: (List.range n).map (fun k => Sel.mk par (q + 1 + 1 + k)) := by
      rw [List.range_succ_eq_map, List.map_cons, List.map_map]
      simp only [List.cons.injEq]
      refine ⟨by simp, ?_⟩
      apply List.map_congr_left
      intro k _
      simp [Function.comp]
      omega
    rw [hmap]
    have hrec := ih (q + 1)
    simp [checkRun]
    exact hrec

/-- A non-empty consecutive same-parent run passes node-list
validation. -/
theorem validate_run_ok (par p m : Nat) :
    validateNodeList (runSel par p (m + 1)) = .ok () := by
  have hmap : runSel par p (m + 1)
      = Sel.mk par p :: (List.range m).map (fun k => Sel.mk par (p + 1 + k)) := by
    unfold runSel
    rw [List.range_succ_eq_map, List.map_cons, List.map_map]
    simp only [List.cons.injEq]
    refine ⟨by simp, ?_⟩
    apply List.map_congr_left
    intro k _
    simp [Function.comp]
    omega
  rw [hmap]
  exact checkRun_consecutive m par p

end Extract

namespace Children

/-- A children list that passes the Assignment contract from any
starting position consists of DataNodes only. -/
theorem validFrom_assignment_mem (l : List CKind) :
    ∀ (i : Nat), validFrom .assignmentNode i l = true → ∀ k ∈ l, isDataNode k = true := by
  induction l with
  | nil => intro i h k hk; cases hk
  | cons x rest ih =>
    intro i h k hk
    rw [validFrom, Bool.and_eq_true] at h
    cases hk with
    | head =>
      match i, h.1 with
      | 0, h1 => exact h1
      | 1, h1 => exact h1
      | (j + 2), h1 => simp [validAt] at h1
    | tail _ hmem => exact ih (i + 1) h.2 k hmem

end Children

/-! # Claim theorems -/

set_option maxRecDepth 200000 in
/-- C1: the claim states that blocking a loop `do i = 1, N, 1` with
block size B yields an outer loop of step B, an inner loop over
`[outer_i, min(outer_i + B, N)]`, and an iteration sequence for `i`
equal to `1..N`, each value exactly once, in order.  The structural part
holds (first conjunct, at N = 100, B = 32, the class docstring's own
example), and the original loop indeed runs `i` through `1..100` (second
conjunct).  But because a Fortran DO bound is inclusive, the generated
inner bound `min(outer_i + B, N)` re-executes every block boundary: the
blocked nest runs 103 iterations, with `i = 33`, `65` and `97` each
executed twice (third conjunct) — the code is off by one (`outer_i + B`
instead of `outer_i + (B - 1)`) and the transformation is not
semantics-preserving, contradicting the exactly-once requirement. -/
theorem C1_blocking_executes_block_boundaries_twice :
    BlockLoop.blockLoopApply
        (.loop "i" (.lit 1 .integer) (.lit 100 .integer) (.lit 1 .integer) [] []) none
      = .ok (.loop "i_out_var" (.lit 1 .integer) (.lit 100 .integer) (.lit 32 .integer)
          ["blocked"]
          [ .assign "i_el_inner"
              (.minOp (.add (.ref "i_out_var") (.lit 32 .integer)) (.lit 100 .integer)),
            .loop "i" (.ref "i_out_var") (.ref "i_el_inner") (.lit 1 .integer)
              ["blocked"] [] ])
  ∧ (BlockLoop.execStmts 300
        [.loop "i" (.lit 1 .integer) (.lit 100 .integer) (.lit 1 .integer) [] []] []).map
        (fun r => BlockLoop.traceOf "i" r.2)
      = some ((List.range' 1 100).map (fun n => (n : Int)))
  ∧ (BlockLoop.execStmts 300
        [.loop "i_out_var" (.lit 1 .integer) (.lit 100 .integer) (.lit 32 .integer)
          ["blocked"]
          [ .assign "i_el_inner"
              (.minOp (.add (.ref "i_out_var") (.lit 32 .integer)) (.lit 100 .integer)),
            .loop "i" (.ref "i_out_var") (.ref "i_el_inner") (.lit 1 .integer)
              ["blocked"] [] ]] []).map
        (fun r => ((BlockLoop.traceOf "i" r.2).length,
                   (BlockLoop.traceOf "i" r.2).count 33,
                   (BlockLoop.traceOf "i" r.2).count 65,
                   (BlockLoop.traceOf "i" r.2).count 97))
      = some (103, 2, 2, 2) := by
  refine ⟨rfl, by decide, by decide⟩

/-- C2: the claim states that executing the lowering of R = ABS(X)
assigns R = 3.5 for X = -3.5 and R = 2.0 for X = 2.0 (both hold, first
two conjuncts), and that executing the lowering of R = SIGN(A, B) with
A = 5.0, B = -2.0 assigns R = -5.0, the magnitude of the first argument
with the sign of the second.  It does not: NemoSignTrans builds
ABS(node.children[1]) — the second argument — and conditions the
negation on node.children[0], so the lowered code computes the magnitude
of B with the sign of A and assigns R = 2.0 (third conjunct), while the
Fortran intrinsic semantics of the replaced operation give -5.0 (fourth
conjunct): the lowering swaps the roles of the two SIGN arguments. -/
theorem C2_sign_lowering_swaps_arguments :
    Nemo.qGet (Nemo.execQStmts (Nemo.nemoAbsApplySchedule "r" (.lit (-(7/2)))) []) "r" = 7/2
  ∧ Nemo.qGet (Nemo.execQStmts (Nemo.nemoAbsApplySchedule "r" (.lit 2)) []) "r" = 2
  ∧ Nemo.qGet (Nemo.execQStmts (Nemo.nemoSignApplySchedule "r" (.lit 5) (.lit (-2))) []) "r" = 2
  ∧ Nemo.evalQ [] (.signOp (.lit 5) (.lit (-2))) = -5
  ∧ (2 : ℚ) ≠ -5 := by
  refine ⟨?_, ?_, ?_, ?_, by norm_num⟩
  · norm_num [Nemo.nemoAbsApplySchedule, Nemo.nemoAbsLowering, Nemo.execQStmts,
      Nemo.execQStmt, Nemo.evalQ, Nemo.evalQCond, Nemo.qGet]
  · norm_num [Nemo.nemoAbsApplySchedule, Nemo.nemoAbsLowering, Nemo.execQStmts,
      Nemo.execQStmt, Nemo.evalQ, Nemo.evalQCond, Nemo.qGet]
  · norm_num [Nemo.nemoSignApplySchedule, Nemo.nemoAbsLowering, Nemo.execQStmts,
      Nemo.execQStmt, Nemo.evalQ, Nemo.evalQCond, Nemo.qGet]
    decide
  · norm_num [Nemo.evalQ]

/-- C3: the symbolic-equality oracle returns EQUAL for (i+j, j+i),
NOT_EQUAL for (i+j, j+i+1) and for (a%b(i), a%b(i+1)) — structure
accesses being opaque atoms keyed by their textual path — and, for
(max(1,2,3), max(3,2,1)), UNKNOWN (not NOT_EQUAL): per the documented
limitation, library calls with literal-constant arguments are compared
only by their spelled-out call keys, and a mismatch is inconclusive. -/
theorem C3_symbolic_equality_results :
    SymMaths.equal (.add (.var "i") (.var "j")) (.add (.var "j") (.var "i"))
      = .equalR
  ∧ SymMaths.equal (.add (.var "i") (.var "j"))
      (.add (.add (.var "j") (.var "i")) (.intLit 1)) = .notEqualR
  ∧ SymMaths.equal (.structAccess "a%b(i)") (.structAccess "a%b(i+1)") = .notEqualR
  ∧ SymMaths.equal (.call "MAX" [1, 2, 3]) (.call "MAX" [3, 2, 1]) = .unknownR := by
  refine ⟨by decide, by decide, by decide, by decide⟩

/-- C4: for a loop carrying the 'blocked' annotation whose step is an
integer literal s with |s| within the block size B, a second validate
fails with the "already blocked" TransformationError (first conjunct),
apply — which validates first — fails identically without rewriting
anything (second conjunct), and no annotated loop can ever pass
validate, whatever its step expression or options (third conjunct): the
loop is never blocked a second time. -/
theorem C4_already_blocked_guard (v : String) (a b : BlockLoop.BExpr)
    (ann : List String) (body : List BlockLoop.BStmt) (s B : Int)
    (hann : "blocked" ∈ ann) (hsB : |s| ≤ |B|) :
    BlockLoop.blockLoopValidate (.loop v a b (.lit s .integer) ann body) (some (.int B))
      = .error (.transformationError
          "Cannot apply a BlockLoopTrans to an already blocked loop.")
  ∧ BlockLoop.blockLoopApply (.loop v a b (.lit s .integer) ann body) (some (.int B))
      = .error (.transformationError
          "Cannot apply a BlockLoopTrans to an already blocked loop.")
  ∧ ∀ (stepE : BlockLoop.BExpr) (opts : Option BlockLoop.OptVal),
      BlockLoop.blockLoopValidate (.loop v a b stepE ann body) opts ≠ .ok () := by
  have h1 : ¬ (|s| > |B|) := not_lt.mpr hsB
  have hval : BlockLoop.blockLoopValidate
      (.loop v a b (.lit s .integer) ann body) (some (.int B))
      = .error (.transformationError
          "Cannot apply a BlockLoopTrans to an already blocked loop.") := by
    simp [BlockLoop.blockLoopValidate, BlockLoop.optGet, h1, hann]
  refine ⟨hval, ?_, ?_⟩
  · simp [BlockLoop.blockLoopApply, hval, Bind.bind, Except.bind]
  · intro stepE opts
    cases stepE with
    | lit s2 ty =>
      cases ty with
      | real => simp [BlockLoop.blockLoopValidate]
      | integer =>
        cases h : BlockLoop.optGet opts with
        | str t => simp [BlockLoop.blockLoopValidate, h]
        | int B2 =>
          by_cases h2 : |s2| > |B2|
          · simp [BlockLoop.blockLoopValidate, h, h2]
          · simp [BlockLoop.blockLoopValidate, h, h2, hann]
    | ref n => simp [BlockLoop.blockLoopValidate]
    | add a2 b2 => simp [BlockLoop.blockLoopValidate]
    | sub a2 b2 => simp [BlockLoop.blockLoopValidate]
    | minOp a2 b2 => simp [BlockLoop.blockLoopValidate]
    | maxOp a2 b2 => simp [BlockLoop.blockLoopValidate]

/-- Witness for C4 at the docstring's loop, already annotated, with the
default block size, including the never-validates conjunct at a
non-constant step and empty options. -/
theorem C4_already_blocked_guard_witness :
    ("blocked" ∈ ["blocked"]) ∧ (|(1 : Int)| ≤ |(32 : Int)|)
  ∧ BlockLoop.blockLoopValidate
      (.loop "i" (.lit 1 .integer) (.lit 100 .integer) (.lit 1 .integer) ["blocked"] [])
      (some (.int 32))
      = .error (.transformationError
          "Cannot apply a BlockLoopTrans to an already blocked loop.")
  ∧ BlockLoop.blockLoopApply
      (.loop "i" (.lit 1 .integer) (.lit 100 .integer) (.lit 1 .integer) ["blocked"] [])
      (some (.int 32))
      = .error (.transformationError
          "Cannot apply a BlockLoopTrans to an already blocked loop.")
  ∧ BlockLoop.blockLoopValidate
      (.loop "i" (.lit 1 .integer) (.lit 100 .integer) (.ref "n") ["blocked"] [])
      none ≠ .ok () := by
  have h := C4_already_blocked_guard "i" (.lit 1 .integer) (.lit 100 .integer)
    ["blocked"] [] 1 32 (by decide) (by decide)
  exact ⟨by decide, by decide, h.1, h.2.1, h.2.2 (.ref "n") none⟩

/-- C5 counterexample: the claim states that a loop whose body is not
exactly one nested Loop fails LoopTiling2DTrans.validate with a
TransformationError carrying a non-empty, specific message.  The
failure does occur, but the raised error is TransformationError("") —
its message is the empty string — both for a two-statement body and for
a single non-Loop child. -/
theorem C5_tiling_error_message_is_empty :
    Tiling.loopTiling2DValidate
        (.loop "i" (.lit 1 .integer) (.lit 10 .integer) (.lit 1 .integer) []
          [.assign "x" (.lit 1 .integer), .assign "y" (.lit 2 .integer)])
      = .error (.transformationError "")
  ∧ Tiling.loopTiling2DValidate
        (.loop "i" (.lit 1 .integer) (.lit 10 .integer) (.lit 1 .integer) []
          [.assign "x" (.lit 1 .integer)])
      = .error (.transformationError "")
  ∧ ("" : String).length = 0 := by
  refine ⟨rfl, rfl, rfl⟩

/-- C5 (amended): for every loop whose body is not exactly one child
that is itself a Loop, LoopTiling2DTrans.validate fails with a
TransformationError, but the error message is the empty string, not a
human-readable specific reason. -/
theorem C5_tiling_bad_shape_raises_empty_message (v : String)
    (a b s : BlockLoop.BExpr) (ann : List String) (body : List BlockLoop.BStmt)
    (h : Tiling.badTilingBody body = true) :
    Tiling.loopTiling2DValidate (.loop v a b s ann body)
      = .error (.transformationError "") := by
  match body, h with
  | [], _ => rfl
  | [inner], h =>
    cases inner with
    | assign lhs rhs => rfl
    | loop v2 a2 b2 s2 ann2 body2 => simp [Tiling.badTilingBody, BlockLoop.isLoop] at h
  | x :: y :: rest, _ => rfl

/-- Witness for C5 at a loop whose body holds two assignments. -/
theorem C5_tiling_bad_shape_raises_empty_message_witness :
    Tiling.badTilingBody
        [BlockLoop.BStmt.assign "x" (.lit 1 .integer),
         BlockLoop.BStmt.assign "y" (.lit 2 .integer)] = true
  ∧ Tiling.loopTiling2DValidate
        (.loop "i" (.lit 1 .integer) (.lit 10 .integer) (.lit 1 .integer) []
          [.assign "x" (.lit 1 .integer), .assign "y" (.lit 2 .integer)])
      = .error (.transformationError "") :=
  ⟨by decide,
   C5_tiling_bad_shape_raises_empty_message "i" (.lit 1 .integer) (.lit 10 .integer)
     (.lit 1 .integer) [] _ (by decide)⟩

/-- C6 counterexample: the claim states that validate type-checks the
supplied blocksize and raises a TransformationError — and no other kind
of exception — for a type-mismatched value.  But validate feeds the
value straight into Python's abs(), so a string blocksize raises a
TypeError instead. -/
theorem C6_string_blocksize_raises_typeerror :
    BlockLoop.blockLoopValidate
        (.loop "i" (.lit 1 .integer) (.lit 100 .integer) (.lit 1 .integer) [] [])
        (some (.str "32"))
      = .error (.typeError "bad operand type for abs(): 'str'") := rfl

/-- C6 (amended): block size 32 is used whenever options carries no
"blocksize" key — validate and apply behave identically to an explicit
blocksize of 32 on every node (first conjunct) — but validate does not
type- or range-check the value: a string blocksize escapes as a Python
TypeError rather than a TransformationError (second conjunct), a
negative blocksize is accepted outright because only |step| <=
|blocksize| is compared (third conjunct), and a zero blocksize is
rejected only indirectly, through the step-size comparison's
TransformationError (fourth conjunct). -/
theorem C6_blocksize_default_and_loose_checking :
    (∀ l : BlockLoop.BStmt,
        BlockLoop.blockLoopValidate l none
          = BlockLoop.blockLoopValidate l (some (.int 32))
      ∧ BlockLoop.blockLoopApply l none
          = BlockLoop.blockLoopApply l (some (.int 32)))
  ∧ BlockLoop.blockLoopValidate
        (.loop "i" (.lit 1 .integer) (.lit 100 .integer) (.lit 1 .integer) [] [])
        (some (.str "32"))
      = .error (.typeError "bad operand type for abs(): 'str'")
  ∧ BlockLoop.blockLoopValidate
        (.loop "i" (.lit 1 .integer) (.lit 100 .integer) (.lit 1 .integer) [] [])
        (some (.int (-32)))
      = .ok ()
  ∧ BlockLoop.blockLoopValidate
        (.loop "i" (.lit 1 .integer) (.lit 100 .integer) (.lit 1 .integer) [] [])
        (some (.int 0))
      = .error (.transformationError
          "Cannot apply a BlockLoopTrans to a loop with larger step size (1) than the chosen block size (0).") := by
  refine ⟨fun l => ?_, rfl, rfl, rfl⟩
  cases l <;> exact ⟨rfl, rfl⟩

/-- C7: extracting a run of n consecutive same-parent nodes starting at
position p of an extract-free schedule passes validation, produces the
schedule with a single extract region node at position p wrapping
exactly those n nodes, preserves the absolute (pre-order) position of
the first extracted node, and shrinks the schedule by n - 1; while a
duplicated/out-of-order selection fails validation with the
consecutiveness error and a mixed-parent selection fails with the
same-parent error (final two conjuncts, at the shapes of the in-src
test). -/
theorem C7_extract_region_soundness (sched : List Extract.XNode) (par p n : Nat)
    (hn : 0 < n) (hpn : p + n ≤ sched.length)
    (hfree : Extract.countExtracts sched = 0) :
    Extract.validateNodeList (Extract.runSel par p n) = .ok ()
  ∧ (Extract.applyExtract sched p n)[p]?
      = some (.extractNode ((sched.drop p).take n))
  ∧ Extract.countExtracts (Extract.applyExtract sched p n) = 1
  ∧ Extract.absPosOfChild (Extract.applyExtract sched p n) p
      = Extract.absPosOfChild sched p
  ∧ (Extract.applyExtract sched p n).length + n = sched.length + 1
  ∧ Extract.validateNodeList [Extract.Sel.mk 0 0, Extract.Sel.mk 0 0, Extract.Sel.mk 0 1]
      = .error "Children are not consecutive children of one parent: child has position 0, but previous child had position 0."
  ∧ Extract.validateNodeList [Extract.Sel.mk 0 1, Extract.Sel.mk 1 0, Extract.Sel.mk 0 2]
      = .error "Error in LFRicExtractTrans: supplied nodes are not children of the same parent." := by
  have hlen : (sched.take p).length = p := by
    rw [List.length_take]; omega
  have hsplit : (sched.drop p).take n ++ sched.drop (p + n) = sched.drop p := by
    have hd : sched.drop (p + n) = (sched.drop p).drop n := by
      rw [List.drop_drop]
    rw [hd, List.take_append_drop]
  refine ⟨?_, ?_, ?_, ?_, ?_, rfl, rfl⟩
  · obtain ⟨m, rfl⟩ : ∃ m, n = m + 1 := ⟨n - 1, by omega⟩
    exact Extract.validate_run_ok par p m
  · rw [Extract.applyExtract, List.getElem?_append_right (by omega)]
    simp [hlen]
  · have h0 : Extract.countExtracts (sched.take p)
        + Extract.countExtracts (sched.drop p) = 0 := by
      rw [← Extract.countExtracts_append, List.take_append_drop, hfree]
    have h1 : Extract.countExtracts ((sched.drop p).take n)
        + Extract.countExtracts (sched.drop (p + n))
        = Extract.countExtracts (sched.drop p) := by
      rw [← Extract.countExtracts_append, hsplit]
    rw [Extract.applyExtract, Extract.countExtracts_append]
    simp only [Extract.countExtracts, Extract.countExtract]
    omega
  · unfold Extract.absPosOfChild
    congr 1
    rw [Extract.applyExtract]
    rw [List.take_left' hlen]
  · rw [Extract.applyExtract]
    simp [List.length_append, List.length_take, List.length_drop]
    omega

/-- Witness for C7: a three-statement run extracted from the front of a
four-statement schedule. -/
theorem C7_extract_region_soundness_witness :
    (0 < 3) ∧ (0 + 3 ≤ ([Extract.XNode.stmt 0, .stmt 1, .stmt 2, .stmt 3] : List Extract.XNode).length)
  ∧ Extract.countExtracts [Extract.XNode.stmt 0, .stmt 1, .stmt 2, .stmt 3] = 0
  ∧ Extract.validateNodeList (Extract.runSel 7 0 3) = .ok ()
  ∧ (Extract.applyExtract [Extract.XNode.stmt 0, .stmt 1, .stmt 2, .stmt 3] 0 3)[0]?
      = some (.extractNode [.stmt 0, .stmt 1, .stmt 2])
  ∧ Extract.countExtracts
      (Extract.applyExtract [Extract.XNode.stmt 0, .stmt 1, .stmt 2, .stmt 3] 0 3) = 1
  ∧ Extract.absPosOfChild
      (Extract.applyExtract [Extract.XNode.stmt 0, .stmt 1, .stmt 2, .stmt 3] 0 3) 0
      = Extract.absPosOfChild [Extract.XNode.stmt 0, .stmt 1, .stmt 2, .stmt 3] 0 := by
  have h := C7_extract_region_soundness
    [Extract.XNode.stmt 0, .stmt 1, .stmt 2, .stmt 3] 7 0 3
    (by decide) (by decide) (by decide)
  exact ⟨by decide, by decide, by decide, h.1, h.2.1, h.2.2.1, h.2.2.2.1⟩

/-- C8 counterexample: the claim states that a Loop always keeps its
four children (start, stop, step, body).  But child validation checks
each remaining item only against its own position, not completeness:
popping the last child of a full Loop removes its body Schedule
successfully — no error, three children left — exactly as the in-src
test test_children_validation asserts. -/
theorem C8_loop_pop_leaves_three_children :
    Children.popLast .loopNode [.literal, .literal, .literal, .scheduleNode]
      = ([.literal, .literal, .literal], none) := by decide

/-- C8 (amended): every child mutation validates the candidate list
item-by-item against the parent kind's positional contract before
committing; on violation it reports a GenerationError and leaves the
children unchanged (first conjunct), a successfully mutated Assignment
holds only DataNode children (second conjunct), and the raising
operations of the in-src test behave accordingly (remaining conjuncts);
completeness, however, is not part of the check, so a Loop can lose its
trailing Schedule (see the counterexample). -/
theorem C8_children_validation_amended (p : Children.PKind)
    (current cand l : List Children.CKind)
    (hbad : Children.validList p cand = false)
    (hl : Children.validList .assignmentNode l = true) :
    Children.mutateChildren p current cand
      = (current, some "GenerationError: item can't be child at that position of this parent")
  ∧ (∀ k ∈ l, Children.isDataNode k = true)
  ∧ Children.addchild .assignmentNode [] .returnStmt
      = ([], some "GenerationError: item can't be child at that position of this parent")
  ∧ Children.insertChild .loopNode [.literal, .literal, .literal, .scheduleNode] 1 .literal
      = ([.literal, .literal, .literal, .scheduleNode],
         some "GenerationError: item can't be child at that position of this parent")
  ∧ Children.reverseChildren .loopNode [.literal, .literal, .literal, .scheduleNode]
      = ([.literal, .literal, .literal, .scheduleNode],
         some "GenerationError: item can't be child at that position of this parent")
  ∧ Children.addchild .assignmentNode [] .reference = ([.reference], none) := by
  refine ⟨?_, Children.validFrom_assignment_mem l 0 hl, by decide, by decide, by decide, by decide⟩
  simp [Children.mutateChildren, hbad]

/-- Witness for C8 with an invalid candidate (a Return as would-be first
child of an Assignment) and a valid Assignment children list. -/
theorem C8_children_validation_amended_witness :
    Children.validList .assignmentNode [Children.CKind.returnStmt] = false
  ∧ Children.validList .assignmentNode [Children.CKind.reference, .literal] = true
  ∧ Children.mutateChildren .assignmentNode [] [Children.CKind.returnStmt]
      = ([], some "GenerationError: item can't be child at that position of this parent")
  ∧ Children.isDataNode .reference = true := by
  have h := C8_children_validation_amended .assignmentNode []
    [Children.CKind.returnStmt] [Children.CKind.reference, .literal]
    (by decide) (by decide)
  exact ⟨by decide, by decide, h.1, h.2.1 .reference (by decide)⟩

/-- C9: ArrayReference.create raises GenerationError — creating no node
— when an array symbol's number of shape dimensions differs from the
number of supplied indices (first conjunct), when the symbol is not a
DataSymbol (second), when indices is not a list (third), and when the
symbol is neither an array nor of deferred/unknown type (fourth); the
error value carries the exact source message in each case. -/
theorem C9_array_reference_create_errors (name : String) (shape : List Nat)
    (items : List ArrayRef.IdxItem) (tn tn2 : String)
    (hmism : shape.length ≠ items.length) :
    ArrayRef.create (.dataSymbol name (.array shape)) (.pyList items)
      = .error ("the symbol '" ++ name
          ++ "' should have the same number of dimensions as indices (provided in the 'indices' argument). Expecting '"
          ++ toString items.length ++ "' but found '"
          ++ toString shape.length ++ "'.")
  ∧ ArrayRef.create (.otherObject tn) (.pyList items)
      = .error ("symbol argument in create method of ArrayReference class should be a DataSymbol but found '"
          ++ tn ++ "'.")
  ∧ ArrayRef.create (.dataSymbol name .scalar) (.notAList tn2)
      = .error ("indices argument in create method of ArrayReference class should be a list but found '"
          ++ tn2 ++ "'.")
  ∧ ArrayRef.create (.dataSymbol name .scalar) (.pyList items)
      = .error ("expecting the symbol '" ++ name ++ "' to be an array, but found '"
          ++ ArrayRef.dtStr .scalar ++ "'.") := by
  refine ⟨?_, rfl, rfl, ?_⟩
  · simp [ArrayRef.create, ArrayRef.isArrayDT, ArrayRef.shapeOf, hmism]
  · simp [ArrayRef.create, ArrayRef.isArrayDT, ArrayRef.dtStr]

/-- Witness for C9: a two-dimensional array given one index, plus the
other three error shapes at concrete arguments. -/
theorem C9_array_reference_create_errors_witness :
    (([1, 2] : List Nat).length ≠ ([ArrayRef.IdxItem.node 0] : List ArrayRef.IdxItem).length)
  ∧ ArrayRef.create (.dataSymbol "var" (.array [1, 2])) (.pyList [ArrayRef.IdxItem.node 0])
      = .error ("the symbol '" ++ "var"
          ++ "' should have the same number of dimensions as indices (provided in the 'indices' argument). Expecting '"
          ++ toString ([ArrayRef.IdxItem.node 0] : List ArrayRef.IdxItem).length ++ "' but found '"
          ++ toString ([1, 2] : List Nat).length ++ "'.")
  ∧ ArrayRef.create (.otherObject "NoneType") (.pyList [ArrayRef.IdxItem.node 0])
      = .error ("symbol argument in create method of ArrayReference class should be a DataSymbol but found '"
          ++ "NoneType" ++ "'.")
  ∧ ArrayRef.create (.dataSymbol "var" .scalar) (.notAList "str")
      = .error ("indices argument in create method of ArrayReference class should be a list but found '"
          ++ "str" ++ "'.")
  ∧ ArrayRef.create (.dataSymbol "var" .scalar) (.pyList [ArrayRef.IdxItem.node 0])
      = .error ("expecting the symbol '" ++ "var" ++ "' to be an array, but found '"
          ++ ArrayRef.dtStr .scalar ++ "'.") := by
  have h := C9_array_reference_create_errors "var" [1, 2] [ArrayRef.IdxItem.node 0]
    "NoneType" "str" (by decide)
  exact ⟨by decide, h.1, h.2.1, h.2.2.1, h.2.2.2⟩

/-- C10: when the call-site scope chain already binds a symbol of the
kernel's name, KernelModuleInlineTrans.apply (validation having
succeeded) takes the pass branch: the state — scope tables, the
Container's symbol table and the root's children — is returned
untouched, and no error value exists in this code path. -/
theorem C10_module_inline_existing_symbol_noop (kname code : String)
    (st : KMI.KState) (hfound : (KMI.lookup st kname).isSome = true) :
    KMI.kmiApply kname code st = st := by
  unfold KMI.kmiApply
  cases h : KMI.lookup st kname with
  | some n => rfl
  | none => rw [h] at hfound; simp at hfound

/-- Witness for C10: a state whose innermost scope table already binds
the kernel name. -/
theorem C10_module_inline_existing_symbol_noop_witness :
    (KMI.lookup (KMI.KState.mk [["kern"]] ["modsym"] ["r1"]) "kern").isSome = true
  ∧ KMI.kmiApply "kern" "code" (KMI.KState.mk [["kern"]] ["modsym"] ["r1"])
      = KMI.KState.mk [["kern"]] ["modsym"] ["r1"] :=
  ⟨by decide,
   C10_module_inline_existing_symbol_noop "kern" "code"
     (KMI.KState.mk [["kern"]] ["modsym"] ["r1"]) (by decide)⟩
